import Mathlib

/-!
Shallow embedding of `ros/src/waypoint_updater/waypoint_updater.py`.

Floating-point arithmetic is idealised as real arithmetic; Python lists
become Lean lists; the KDTree nearest-neighbour query is treated as an
oracle (its result `rawIndex` is a parameter), since only the
directionality-correction step after it is this repository's code.
-/

noncomputable section

namespace WaypointUpdater

/-- Module-level constant `WAYPOINT_PUBLISHING_RATE = 30`. -/
def WAYPOINT_PUBLISHING_RATE : ℕ := 30

/-- Module-level constant `LOOKAHEAD_WPS = 100`. -/
def LOOKAHEAD_WPS : ℕ := 100

/-- Module-level constant `MAX_DECEL = 0.5`. -/
def MAX_DECEL : ℝ := 0.5

/-- Module-level constant `CONSTANT_DECEL = 1 / LOOKAHEAD_WPS`. -/
def CONSTANT_DECEL : ℝ := 1 / LOOKAHEAD_WPS

/-- Module-level constant `STOP_LINE_MARGIN = 4`. -/
def STOP_LINE_MARGIN : ℤ := 4

/-- A 3D position (`geometry_msgs` point with fields x, y, z). -/
structure Position where
  x : ℝ
  y : ℝ
  z : ℝ
  deriving Inhabited

/-- A pose: position plus orientation (quaternion, never inspected by the
node, only copied wholesale). -/
structure Pose where
  position : Position
  orientation : ℝ × ℝ × ℝ × ℝ
  deriving Inhabited

/-- A `styx_msgs` waypoint as used by the node: its pose and the target
speed `twist.twist.linear.x`. -/
structure Waypoint where
  pose : Pose
  speed : ℝ
  deriving Inhabited

/-- The lambda `dl` inside `WaypointUpdater.distance`:
`sqrt((a.x-b.x)**2 + (a.y-b.y)**2 + (a.z-b.z)**2)`. -/
def dl (a b : Position) : ℝ :=
  Real.sqrt ((a.x - b.x) ^ 2 + (a.y - b.y) ^ 2 + (a.z - b.z) ^ 2)

/-- The loop of `WaypointUpdater.distance`: `prev` is the running `wp1`
(re-anchored to `i` each iteration), `i` the current loop variable, `n`
the number of iterations left in `range(wp1, wp2+1)`. -/
def distAux (wps : List Waypoint) : ℕ → ℕ → ℕ → ℝ
  | _, _, 0 => 0
  | prev, i, n + 1 =>
      dl (wps.getD prev default).pose.position (wps.getD i default).pose.position
        + distAux wps i (i + 1) n

/-- `WaypointUpdater.distance(waypoints, wp1, wp2)`: accumulate `dl` over
`i in range(wp1, wp2+1)`, re-anchoring `wp1 = i` after each step. -/
def distance (wps : List Waypoint) (wp1 wp2 : ℕ) : ℝ :=
  distAux wps wp1 wp1 (wp2 + 1 - wp1)

/-- `WaypointUpdater.decelerate_waypoints(waypoints, closest_index)`,
reading `self.stopline_wp_index` as the argument `stopline`. The Python
`for i, wp in enumerate(waypoints)` loop builds a fresh waypoint per
index. -/
def decelerate_waypoints (wps : List Waypoint) (closest : ℕ) (stopline : ℤ) :
    List Waypoint :=
  (List.range wps.length).map (fun i =>
    let wp := wps.getD i default
    let stop_index := (max (stopline - closest - STOP_LINE_MARGIN) 0).toNat
    let d := distance wps i stop_index
    let vel := Real.sqrt (2 * MAX_DECEL * d) + (i : ℝ) * CONSTANT_DECEL
    let vel := if vel < 1 then 0 else vel
    { pose := wp.pose, speed := min vel wp.speed })

/-- The base slice `self.base_lane.waypoints[closest_index : farthest_index]`
taken in `WaypointUpdater.generate_lane`. -/
def baseSlice (base : List Waypoint) (closest : ℕ) : List Waypoint :=
  (base.drop closest).take LOOKAHEAD_WPS

/-- `WaypointUpdater.generate_lane`, with `self.base_lane.waypoints` and
`self.stopline_wp_index` passed explicitly and the corrected closest index
already computed. -/
def generate_lane (base : List Waypoint) (stopline : ℤ) (closest : ℕ) :
    List Waypoint :=
  let farthest := closest + LOOKAHEAD_WPS
  let base_waypoints := baseSlice base closest
  if stopline = -1 ∨ (farthest : ℤ) ≤ stopline then base_waypoints
  else decelerate_waypoints base_waypoints closest stopline

/-- `WaypointUpdater.get_closest_waypoint_index`, with the KDTree query
result passed in as `rawIndex`; `waypoints_2d[closest_index - 1]` wraps to
the last element when `closest_index = 0` (Python negative indexing), i.e.
index `(c - 1) mod L`. -/
def get_closest_waypoint_index (pts : List (ℝ × ℝ)) (q : ℝ × ℝ)
    (rawIndex : ℕ) : ℕ :=
  let closest_coord := pts.getD rawIndex default
  let prev_coord := pts.getD ((rawIndex + pts.length - 1) % pts.length) default
  let val := (closest_coord.1 - prev_coord.1) * (q.1 - closest_coord.1)
      + (closest_coord.2 - prev_coord.2) * (q.2 - closest_coord.2)
  if 0 < val then (rawIndex + 1) % pts.length else rawIndex

/-- The mutable fields of the `WaypointUpdater` object: `base_lane`,
`pose`, `stopline_wp_index`, and `waypoints_2d` (which also stands for the
KDTree, built from exactly this data). -/
structure State where
  base_lane : Option (List Waypoint)
  pose : Option Pose
  stopline_wp_index : ℤ
  waypoints_2d : Option (List (ℝ × ℝ))

/-- The field values set in `WaypointUpdater.__init__`. -/
def initState : State :=
  { base_lane := none, pose := none, stopline_wp_index := -1,
    waypoints_2d := none }

/-- `WaypointUpdater.waypoints_cb`: always stores the new route in
`base_lane`; builds `waypoints_2d` (and the tree) only when
`not self.waypoints_2d`, i.e. when it is `None` or the empty list. -/
def waypoints_cb (st : State) (route : List Waypoint) : State :=
  { st with
    base_lane := some route,
    waypoints_2d :=
      match st.waypoints_2d with
      | none => some (route.map fun wp => (wp.pose.position.x, wp.pose.position.y))
      | some [] => some (route.map fun wp => (wp.pose.position.x, wp.pose.position.y))
      | some (p :: ps) => some (p :: ps) }

/-- `WaypointUpdater.pose_cb`. -/
def pose_cb (st : State) (msg : Pose) : State := { st with pose := some msg }

/-- `WaypointUpdater.traffic_cb`. -/
def traffic_cb (st : State) (msg : ℤ) : State :=
  { st with stopline_wp_index := msg }

/-- One tick of the body of `WaypointUpdater.loop` when both `pose` and
`base_lane` are set: `publish_waypoints` computes `generate_lane` from the
current fields and publishes it; no field is assigned. The KDTree query
result is the oracle `rawIndex`. -/
def publish_tick (st : State) (rawIndex : ℕ) : State × List Waypoint :=
  let q :=
    match st.pose with
    | some p => (p.position.x, p.position.y)
    | none => ((0 : ℝ), (0 : ℝ))
  let closest := get_closest_waypoint_index (st.waypoints_2d.getD []) q rawIndex
  (st, generate_lane (st.base_lane.getD []) st.stopline_wp_index closest)

/-- The value `max(self.stopline_wp_index - closest_index - STOP_LINE_MARGIN, 0)`
computed inside the loop of `decelerate_waypoints` (a non-negative integer,
read back as a natural-number list index). -/
def stopOffset (closest : ℕ) (stopline : ℤ) : ℕ :=
  (max (stopline - closest - STOP_LINE_MARGIN) 0).toNat

/-- The velocity `sqrt(2 * MAX_DECEL * dist) + (i * CONSTANT_DECEL)` before
the creep-speed snap. -/
def rawVel (wps : List Waypoint) (closest : ℕ) (stopline : ℤ) (i : ℕ) : ℝ :=
  Real.sqrt (2 * MAX_DECEL * distance wps i (stopOffset closest stopline))
    + (i : ℝ) * CONSTANT_DECEL

/-- A waypoint at `(x, 0, 0)` with target speed `v` (concrete test data). -/
def mkWp (x v : ℝ) : Waypoint :=
  { pose := { position := { x := x, y := 0, z := 0 }, orientation := (0, 0, 0, 1) },
    speed := v }

/-- Ten equally spaced waypoints one unit apart along the x-axis, each with
base speed 5 (the end-to-end example of the spec). -/
def exampleRoute : List Waypoint :=
  [mkWp 0 5, mkWp 1 5, mkWp 2 5, mkWp 3 5, mkWp 4 5,
   mkWp 5 5, mkWp 6 5, mkWp 7 5, mkWp 8 5, mkWp 9 5]

/-- A one-waypoint route (concrete test data). -/
def routeA : List Waypoint := [mkWp 0 1]

/-- A different one-waypoint route (concrete test data). -/
def routeB : List Waypoint := [mkWp 1 2]

/-- Two 2D points on the x-axis (concrete test data for the closest-index
query). -/
def demoPts : List (ℝ × ℝ) := [(0, 0), (2, 0)]

theorem decelerate_length (wps : List Waypoint) (closest : ℕ) (stopline : ℤ) :
    (decelerate_waypoints wps closest stopline).length = wps.length := by
  simp [decelerate_waypoints]

theorem decelerate_getD (wps : List Waypoint) (closest : ℕ) (stopline : ℤ)
    (i : ℕ) (hi : i < wps.length) :
    (decelerate_waypoints wps closest stopline).getD i default =
      { pose := (wps.getD i default).pose,
        speed := min (if rawVel wps closest stopline i < 1 then 0
                      else rawVel wps closest stopline i)
                     ((wps.getD i default).speed) } := by
  rw [List.getD_eq_getElem _ _ (by simpa [decelerate_length] using hi)]
  simp [decelerate_waypoints, rawVel, stopOffset, hi]

theorem baseSlice_length (base : List Waypoint) (closest : ℕ) :
    (baseSlice base closest).length = min LOOKAHEAD_WPS (base.length - closest) := by
  simp [baseSlice]

theorem generate_lane_length (base : List Waypoint) (stopline : ℤ) (closest : ℕ) :
    (generate_lane base stopline closest).length = (baseSlice base closest).length := by
  by_cases h : stopline = -1 ∨ (closest : ℤ) + (LOOKAHEAD_WPS : ℤ) ≤ stopline
  · simp [generate_lane, h]
  · simp [generate_lane, h, decelerate_length]

theorem dl_self (p : Position) : dl p p = 0 := by
  simp [dl]

theorem distAux_eq_sum (wps : List Waypoint) (n : ℕ) :
    ∀ i : ℕ, distAux wps i (i + 1) n =
      ∑ k ∈ Finset.range n,
        dl (wps.getD (i + k) default).pose.position
           (wps.getD (i + k + 1) default).pose.position := by
  induction n with
  | zero => intro i; simp [distAux]
  | succ n ih =>
      intro i
      simp only [distAux]
      rw [ih (i + 1), Finset.sum_range_succ']
      have hsum :
          (∑ k ∈ Finset.range n,
            dl (wps.getD (i + 1 + k) default).pose.position
               (wps.getD (i + 1 + k + 1) default).pose.position)
          = ∑ k ∈ Finset.range n,
              dl (wps.getD (i + (k + 1)) default).pose.position
                 (wps.getD (i + (k + 1) + 1) default).pose.position := by
        apply Finset.sum_congr rfl
        intro k _
        have h1 : i + 1 + k = i + (k + 1) := by omega
        rw [h1]
      rw [hsum]
      simp only [Nat.add_zero]
      exact add_comm _ _

theorem distance_eq_sum (wps : List Waypoint) (a b : ℕ) (hab : a ≤ b) :
    distance wps a b =
      ∑ k ∈ Finset.range (b - a),
        dl (wps.getD (a + k) default).pose.position
           (wps.getD (a + k + 1) default).pose.position := by
  unfold distance
  have h1 : b + 1 - a = (b - a) + 1 := by omega
  rw [h1]
  simp only [distAux]
  rw [dl_self, distAux_eq_sum, zero_add]

theorem distance_zero_of_le (wps : List Waypoint) (a b : ℕ) (h : b ≤ a) :
    distance wps a b = 0 := by
  rcases Nat.lt_or_ge b a with hlt | hge
  · unfold distance
    have h0 : b + 1 - a = 0 := by omega
    rw [h0, distAux]
  · have hab : a = b := by omega
    subst hab
    rw [distance_eq_sum wps a a le_rfl]
    simp

theorem decelerate_getD_speed (wps : List Waypoint) (closest : ℕ) (stopline : ℤ)
    (i : ℕ) (hi : i < wps.length) :
    ((decelerate_waypoints wps closest stopline).getD i default).speed =
      min (if rawVel wps closest stopline i < 1 then 0
           else rawVel wps closest stopline i)
          ((wps.getD i default).speed) := by
  rw [decelerate_getD _ _ _ _ hi]

theorem decelerate_getD_pose (wps : List Waypoint) (closest : ℕ) (stopline : ℤ)
    (i : ℕ) (hi : i < wps.length) :
    ((decelerate_waypoints wps closest stopline).getD i default).pose =
      (wps.getD i default).pose := by
  rw [decelerate_getD _ _ _ _ hi]

theorem generate_lane_pass (base : List Waypoint) (stopline : ℤ) (closest : ℕ)
    (h : stopline = -1 ∨ (closest : ℤ) + (LOOKAHEAD_WPS : ℤ) ≤ stopline) :
    generate_lane base stopline closest = baseSlice base closest := by
  simp [generate_lane, h]

theorem generate_lane_decel (base : List Waypoint) (stopline : ℤ) (closest : ℕ)
    (h : ¬(stopline = -1 ∨ (closest : ℤ) + (LOOKAHEAD_WPS : ℤ) ≤ stopline)) :
    generate_lane base stopline closest =
      decelerate_waypoints (baseSlice base closest) closest stopline := by
  simp [generate_lane, h]

/-- C5: for every route and corrected closest index `closest < L`, the
forward window has length at most `LOOKAHEAD_WPS`; its length equals
`LOOKAHEAD_WPS` exactly when `closest + LOOKAHEAD_WPS ≤ L` and `L - closest`
otherwise, and the base slice is a contiguous segment of the route (no
wraparound padding or duplication). -/
theorem window_bounding (base : List Waypoint) (stopline : ℤ) (closest : ℕ)
    (hc : closest < base.length) :
    (generate_lane base stopline closest).length ≤ LOOKAHEAD_WPS ∧
    (closest + LOOKAHEAD_WPS ≤ base.length →
      (generate_lane base stopline closest).length = LOOKAHEAD_WPS) ∧
    (base.length < closest + LOOKAHEAD_WPS →
      (generate_lane base stopline closest).length = base.length - closest) ∧
    ∃ pre post, pre ++ baseSlice base closest ++ post = base := by
  rw [generate_lane_length, baseSlice_length]
  refine ⟨min_le_left _ _, fun h => by omega, fun h => by omega,
    base.take closest, (base.drop closest).drop LOOKAHEAD_WPS, ?_⟩
  rw [List.append_assoc, baseSlice, List.take_append_drop, List.take_append_drop]

/-- C5 witness: at the example route with `closest = 0`, the window is 10
long (the route is shorter than the lookahead). -/
theorem window_bounding_witness :
    0 < exampleRoute.length ∧ exampleRoute.length < 0 + LOOKAHEAD_WPS ∧
    (generate_lane exampleRoute 6 0).length = exampleRoute.length - 0 := by
  have hc : 0 < exampleRoute.length := by norm_num [exampleRoute]
  have hlt : exampleRoute.length < 0 + LOOKAHEAD_WPS := by
    norm_num [exampleRoute, LOOKAHEAD_WPS]
  exact ⟨hc, hlt, (window_bounding exampleRoute 6 0 hc).2.2.1 hlt⟩

/-- C6: in both branches, every output waypoint's emitted speed is at most
the base slice waypoint's speed at the same local index. -/
theorem speed_cap (base : List Waypoint) (stopline : ℤ) (closest : ℕ) (i : ℕ)
    (hi : i < (generate_lane base stopline closest).length) :
    ((generate_lane base stopline closest).getD i default).speed ≤
      ((baseSlice base closest).getD i default).speed := by
  by_cases h : stopline = -1 ∨ (closest : ℤ) + (LOOKAHEAD_WPS : ℤ) ≤ stopline
  · rw [generate_lane_pass _ _ _ h]
  · rw [generate_lane_decel _ _ _ h] at hi ⊢
    rw [decelerate_length] at hi
    rw [decelerate_getD_speed _ _ _ _ hi]
    exact min_le_right _ _

/-- C6 witness: the cap holds at local index 0 of the example window. -/
theorem speed_cap_witness :
    0 < (generate_lane exampleRoute 6 0).length ∧
    ((generate_lane exampleRoute 6 0).getD 0 default).speed ≤
      ((baseSlice exampleRoute 0).getD 0 default).speed := by
  have hlen : 0 < (generate_lane exampleRoute 6 0).length := by
    rw [generate_lane_length, baseSlice_length]
    norm_num [exampleRoute, LOOKAHEAD_WPS]
  exact ⟨hlen, speed_cap exampleRoute 6 0 0 hlen⟩

/-- C7: with no active stop (`stopline = -1`) or a stop at or beyond
`closest + LOOKAHEAD_WPS`, the emitted window is the base slice unchanged. -/
theorem pass_through (base : List Waypoint) (stopline : ℤ) (closest : ℕ)
    (h : stopline = -1 ∨ (closest : ℤ) + (LOOKAHEAD_WPS : ℤ) ≤ stopline) :
    generate_lane base stopline closest = baseSlice base closest :=
  generate_lane_pass base stopline closest h

/-- C7 witness: with `stopline = -1` the example route's window is the base
slice itself. -/
theorem pass_through_witness :
    generate_lane exampleRoute (-1) 0 = baseSlice exampleRoute 0 :=
  pass_through exampleRoute (-1) 0 (Or.inl rfl)

/-- C2: in the deceleration branch the emitted speed at local index `i` is
`min(v, base speed)` where `v = sqrt(2 * MAX_DECEL * dist(i, stopOffset))
+ i * CONSTANT_DECEL`, snapped to 0 when `v < 1`; moreover
`MAX_DECEL = 0.5` and `CONSTANT_DECEL = 1 / LOOKAHEAD_WPS`. -/
theorem decel_formula (wps : List Waypoint) (closest : ℕ) (stopline : ℤ)
    (i : ℕ) (hi : i < wps.length) :
    ((decelerate_waypoints wps closest stopline).getD i default).speed =
      min
        (if Real.sqrt (2 * MAX_DECEL *
              distance wps i ((max (stopline - (closest : ℤ) - STOP_LINE_MARGIN) 0).toNat))
            + (i : ℝ) * CONSTANT_DECEL < 1
         then 0
         else Real.sqrt (2 * MAX_DECEL *
              distance wps i ((max (stopline - (closest : ℤ) - STOP_LINE_MARGIN) 0).toNat))
            + (i : ℝ) * CONSTANT_DECEL)
        ((wps.getD i default).speed) ∧
    MAX_DECEL = 0.5 ∧ CONSTANT_DECEL = 1 / (LOOKAHEAD_WPS : ℝ) := by
  refine ⟨?_, rfl, rfl⟩
  rw [decelerate_getD_speed _ _ _ _ hi]
  rfl

/-- C2 witness: the formula instantiated at local index 0 of the example
deceleration. -/
theorem decel_formula_witness :
    0 < exampleRoute.length ∧
    (((decelerate_waypoints exampleRoute 0 6).getD 0 default).speed =
      min
        (if Real.sqrt (2 * MAX_DECEL *
              distance exampleRoute 0 ((max ((6 : ℤ) - ((0 : ℕ) : ℤ) - STOP_LINE_MARGIN) 0).toNat))
            + ((0 : ℕ) : ℝ) * CONSTANT_DECEL < 1
         then 0
         else Real.sqrt (2 * MAX_DECEL *
              distance exampleRoute 0 ((max ((6 : ℤ) - ((0 : ℕ) : ℤ) - STOP_LINE_MARGIN) 0).toNat))
            + ((0 : ℕ) : ℝ) * CONSTANT_DECEL)
        ((exampleRoute.getD 0 default).speed) ∧
      MAX_DECEL = 0.5 ∧ CONSTANT_DECEL = 1 / (LOOKAHEAD_WPS : ℝ)) :=
  ⟨by norm_num [exampleRoute], decel_formula exampleRoute 0 6 0 (by norm_num [exampleRoute])⟩

/-- C10: `distance` over in-bounds indices `a ≤ b` is the sum of Euclidean
distances of consecutive positions from `a` to `b` (the first loop
iteration contributing 0); for `a > b` the loop range is empty and the
result is 0, so in the deceleration branch every local index past the stop
offset gets chain distance 0. -/
theorem distance_spec (wps : List Waypoint) (a b : ℕ) :
    (a ≤ b → b < wps.length →
      distance wps a b =
        ∑ k ∈ Finset.range (b - a),
          dl (wps.getD (a + k) default).pose.position
             (wps.getD (a + k + 1) default).pose.position) ∧
    (b < a → distance wps a b = 0) ∧
    (∀ closest : ℕ, ∀ stopline : ℤ,
      stopOffset closest stopline < a →
      distance wps a (stopOffset closest stopline) = 0) := by
  refine ⟨fun hab _ => distance_eq_sum wps a b hab,
    fun hba => distance_zero_of_le wps a b (by omega),
    fun c s h => distance_zero_of_le wps a _ (by omega)⟩

/-- C10 witness: on the example route, `distance 0 1` is the one-step chain
sum and `distance 1 0` is 0. -/
theorem distance_spec_witness :
    ((0 : ℕ) ≤ 1 ∧ 1 < exampleRoute.length ∧
      distance exampleRoute 0 1 =
        ∑ k ∈ Finset.range (1 - 0),
          dl (exampleRoute.getD (0 + k) default).pose.position
             (exampleRoute.getD (0 + k + 1) default).pose.position) ∧
    ((0 : ℕ) < 1 ∧ distance exampleRoute 1 0 = 0) := by
  have h1 : 1 < exampleRoute.length := by norm_num [exampleRoute]
  exact ⟨⟨by norm_num, h1, (distance_spec exampleRoute 0 1).1 (by norm_num) h1⟩,
    ⟨by norm_num, (distance_spec exampleRoute 1 0).2.1 (by norm_num)⟩⟩

/-- C1: with an active stop inside the window and non-negative base speeds,
every output waypoint at local index at or past the stop offset (within the
window) has emitted speed exactly 0. -/
theorem stop_convergence (base : List Waypoint) (closest : ℕ) (stopline : ℤ)
    (hne : baseSlice base closest ≠ [])
    (hstop : stopline ≠ -1)
    (hwin : stopline < (closest : ℤ) + (LOOKAHEAD_WPS : ℤ))
    (hnn : ∀ wp ∈ base, 0 ≤ wp.speed)
    (i : ℕ) (hso : stopOffset closest stopline ≤ i)
    (hi : i < (generate_lane base stopline closest).length) :
    ((generate_lane base stopline closest).getD i default).speed = 0 := by
  have hcond : ¬(stopline = -1 ∨ (closest : ℤ) + (LOOKAHEAD_WPS : ℤ) ≤ stopline) := by
    rintro (h1 | h2)
    · exact hstop h1
    · omega
  rw [generate_lane_decel _ _ _ hcond] at hi ⊢
  rw [decelerate_length] at hi
  rw [decelerate_getD_speed _ _ _ _ hi]
  have h100 : i < LOOKAHEAD_WPS := by
    have h := hi
    rw [baseSlice_length] at h
    exact lt_of_lt_of_le h (min_le_left _ _)
  have hd : distance (baseSlice base closest) i (stopOffset closest stopline) = 0 :=
    distance_zero_of_le _ _ _ hso
  have hv : rawVel (baseSlice base closest) closest stopline i < 1 := by
    rw [rawVel, hd]
    have hle : (i : ℝ) ≤ 99 := by
      have : i ≤ 99 := by
        have := h100
        simp [LOOKAHEAD_WPS] at this
        omega
      exact_mod_cast this
    rw [show (2 : ℝ) * MAX_DECEL * 0 = 0 by ring, Real.sqrt_zero, zero_add]
    rw [CONSTANT_DECEL]
    have : (LOOKAHEAD_WPS : ℝ) = 100 := by norm_num [LOOKAHEAD_WPS]
    rw [this]
    nlinarith
  rw [if_pos hv]
  have hmem : (baseSlice base closest).getD i default ∈ base := by
    have h1 : (baseSlice base closest).getD i default ∈ baseSlice base closest := by
      rw [List.getD_eq_getElem _ _ hi]
      exact List.getElem_mem hi
    unfold baseSlice at h1
    exact List.mem_of_mem_drop (List.mem_of_mem_take h1)
  exact min_eq_left (hnn _ hmem)

/-- C1 witness: on the example route with stop index 6 at closest index 0,
the output waypoint at the stop offset (local index 2) has speed 0. -/
theorem stop_convergence_witness :
    baseSlice exampleRoute 0 ≠ [] ∧ ((6 : ℤ) ≠ -1) ∧
    stopOffset 0 6 ≤ 2 ∧ 2 < (generate_lane exampleRoute 6 0).length ∧
    ((generate_lane exampleRoute 6 0).getD 2 default).speed = 0 := by
  have hne : baseSlice exampleRoute 0 ≠ [] := by
    refine List.length_pos.mp ?_
    rw [baseSlice_length]
    norm_num [exampleRoute, LOOKAHEAD_WPS]
  have hso : stopOffset 0 6 ≤ 2 := by norm_num [stopOffset, STOP_LINE_MARGIN]
  have hi : 2 < (generate_lane exampleRoute 6 0).length := by
    rw [generate_lane_length, baseSlice_length]
    norm_num [exampleRoute, LOOKAHEAD_WPS]
  refine ⟨hne, by norm_num, hso, hi, ?_⟩
  refine stop_convergence exampleRoute 0 6 hne (by norm_num)
    (by norm_num [LOOKAHEAD_WPS]) ?_ 2 hso hi
  intro wp hwp
  fin_cases hwp <;> norm_num [mkWp]

/-- C4: given the raw nearest index `c`, if the dot product of the route
direction at `c` with the offset of the query from vertex `c` is positive
the corrected index is `(c+1) mod L`, otherwise (including a query exactly
at vertex `c`) it is `c` itself. -/
theorem directionality_correction (pts : List (ℝ × ℝ)) (q : ℝ × ℝ) (c : ℕ)
    (hL : 2 ≤ pts.length) (hc : c < pts.length)
    (hdistinct : pts.Pairwise (fun a b => a ≠ b)) :
    (0 < ((pts.getD c default).1 - (pts.getD ((c + pts.length - 1) % pts.length) default).1)
          * (q.1 - (pts.getD c default).1)
        + ((pts.getD c default).2 - (pts.getD ((c + pts.length - 1) % pts.length) default).2)
          * (q.2 - (pts.getD c default).2) →
      get_closest_waypoint_index pts q c = (c + 1) % pts.length) ∧
    (¬ 0 < ((pts.getD c default).1 - (pts.getD ((c + pts.length - 1) % pts.length) default).1)
          * (q.1 - (pts.getD c default).1)
        + ((pts.getD c default).2 - (pts.getD ((c + pts.length - 1) % pts.length) default).2)
          * (q.2 - (pts.getD c default).2) →
      get_closest_waypoint_index pts q c = c) ∧
    (q = pts.getD c default → get_closest_waypoint_index pts q c = c) := by
  refine ⟨fun h => ?_, fun h => ?_, fun hq => ?_⟩
  · simp only [get_closest_waypoint_index]
    rw [if_pos h]
  · simp only [get_closest_waypoint_index]
    rw [if_neg h]
  · simp only [get_closest_waypoint_index]
    rw [if_neg]
    rw [hq]
    simp

/-- C4 witness: with two points on the x-axis, raw nearest index 1 and a
query past that vertex, the corrected index advances to `(1+1) mod 2 = 0`. -/
theorem directionality_correction_witness :
    2 ≤ demoPts.length ∧ 1 < demoPts.length ∧
    get_closest_waypoint_index demoPts (3, 0) 1 = (1 + 1) % demoPts.length := by
  have h2 : 2 ≤ demoPts.length := by norm_num [demoPts]
  have hc : 1 < demoPts.length := by norm_num [demoPts]
  refine ⟨h2, hc, ?_⟩
  refine (directionality_correction demoPts (3, 0) 1 h2 hc ?_).1 ?_
  · norm_num [demoPts, Prod.ext_iff]
  · norm_num [demoPts]

/-- C3 counterexample: a second route delivery is NOT a no-op — it
overwrites the stored base route, so the state after the second call
differs from the state after the first. -/
theorem route_set_second_call_changes_state :
    (waypoints_cb (waypoints_cb initState routeA) routeB).base_lane ≠ some routeA ∧
    waypoints_cb (waypoints_cb initState routeA) routeB ≠ waypoints_cb initState routeA := by
  have hAB : routeA ≠ routeB := by
    simp [routeA, routeB, mkWp]
  have h1 : (waypoints_cb (waypoints_cb initState routeA) routeB).base_lane
      = some routeB := rfl
  have h2 : (waypoints_cb initState routeA).base_lane = some routeA := rfl
  constructor
  · rw [h1]
    intro hcon
    exact hAB (Option.some.inj hcon).symm
  · intro hcon
    have h3 := congrArg State.base_lane hcon
    rw [h1, h2] at h3
    exact hAB (Option.some.inj h3).symm

/-- C3 amended: a second route delivery overwrites the stored base route,
while (for a non-empty first route) the spatial-index data built from the
first route is retained unchanged. -/
theorem route_set_second_call (r1 r2 : List Waypoint) (h : r1 ≠ []) :
    (waypoints_cb (waypoints_cb initState r1) r2).base_lane = some r2 ∧
    (waypoints_cb (waypoints_cb initState r1) r2).waypoints_2d =
      (waypoints_cb initState r1).waypoints_2d ∧
    (waypoints_cb initState r1).waypoints_2d =
      some (r1.map fun wp => (wp.pose.position.x, wp.pose.position.y)) := by
  obtain ⟨a, as, rfl⟩ := List.exists_cons_of_ne_nil h
  exact ⟨rfl, rfl, rfl⟩

/-- C3 amended witness: concrete one-waypoint routes. -/
theorem route_set_second_call_witness :
    routeA ≠ [] ∧
    (waypoints_cb (waypoints_cb initState routeA) routeB).base_lane = some routeB := by
  have h : routeA ≠ [] := by simp [routeA]
  exact ⟨h, (route_set_second_call routeA routeB h).1⟩

/-- C9: planning never mutates stored state — the deceleration branch
returns fresh waypoints of the same count whose poses equal the input
poses (only the speed is set), and a publish tick leaves every stored
field unchanged. -/
theorem frame_no_mutation (wps : List Waypoint) (closest : ℕ) (stopline : ℤ)
    (st : State) (rawIndex : ℕ) :
    (decelerate_waypoints wps closest stopline).length = wps.length ∧
    (∀ i, i < wps.length →
      ((decelerate_waypoints wps closest stopline).getD i default).pose =
        (wps.getD i default).pose) ∧
    (publish_tick st rawIndex).1 = st := by
  exact ⟨decelerate_length _ _ _, fun i hi => decelerate_getD_pose _ _ _ _ hi, rfl⟩

/-- C9 witness: pose preservation at local index 0 of the example
deceleration. -/
theorem frame_no_mutation_witness :
    0 < exampleRoute.length ∧
    ((decelerate_waypoints exampleRoute 0 6).getD 0 default).pose =
      (exampleRoute.getD 0 default).pose :=
  ⟨by norm_num [exampleRoute],
    (frame_no_mutation exampleRoute 0 6 initState 0).2.1 0 (by norm_num [exampleRoute])⟩

/-- C8: on the example route (10 waypoints 1 apart, base speed 5) with the
vehicle at waypoint 0 and stop index 6, the stop offset is 2; the output
waypoint at local index 2 has speed exactly 0, and the outputs at local
indices 0 and 1 have nonzero speeds at most 5 strictly decreasing toward
the stop. -/
theorem end_to_end_example :
    stopOffset 0 6 = 2 ∧
    ((generate_lane exampleRoute 6 0).getD 2 default).speed = 0 ∧
    ((generate_lane exampleRoute 6 0).getD 0 default).speed ≠ 0 ∧
    ((generate_lane exampleRoute 6 0).getD 1 default).speed ≠ 0 ∧
    ((generate_lane exampleRoute 6 0).getD 0 default).speed ≤ 5 ∧
    ((generate_lane exampleRoute 6 0).getD 1 default).speed ≤ 5 ∧
    ((generate_lane exampleRoute 6 0).getD 1 default).speed <
      ((generate_lane exampleRoute 6 0).getD 0 default).speed ∧
    0 < ((generate_lane exampleRoute 6 0).getD 1 default).speed := by
  have e0 : exampleRoute.getD 0 default = mkWp 0 5 := rfl
  have e1 : exampleRoute.getD 1 default = mkWp 1 5 := rfl
  have e2 : exampleRoute.getD 2 default = mkWp 2 5 := rfl
  have hso : stopOffset 0 6 = 2 := by decide
  have hcond : ¬((6 : ℤ) = -1 ∨ ((0 : ℕ) : ℤ) + (LOOKAHEAD_WPS : ℤ) ≤ 6) := by
    norm_num [LOOKAHEAD_WPS]
  have hslice : baseSlice exampleRoute 0 = exampleRoute := by
    rw [baseSlice, List.drop_zero]
    exact List.take_of_length_le (by norm_num [exampleRoute, LOOKAHEAD_WPS])
  have hgen : generate_lane exampleRoute 6 0 = decelerate_waypoints exampleRoute 0 6 := by
    rw [generate_lane_decel _ _ _ hcond, hslice]
  have hd1 : distance exampleRoute 1 2 = 1 := by
    rw [distance_eq_sum exampleRoute 1 2 (by norm_num)]
    rw [show (2 : ℕ) - 1 = 1 from rfl, Finset.sum_range_one]
    show dl (exampleRoute.getD 1 default).pose.position
        (exampleRoute.getD 2 default).pose.position = 1
    rw [e1, e2]
    norm_num [dl, mkWp, Real.sqrt_one]
  have hd0 : distance exampleRoute 0 2 = 2 := by
    rw [distance_eq_sum exampleRoute 0 2 (by norm_num)]
    rw [show (2 : ℕ) - 0 = 2 from rfl, Finset.sum_range_succ, Finset.sum_range_one]
    show dl (exampleRoute.getD 0 default).pose.position
          (exampleRoute.getD 1 default).pose.position
        + dl (exampleRoute.getD 1 default).pose.position
          (exampleRoute.getD 2 default).pose.position = 2
    rw [e0, e1, e2]
    norm_num [dl, mkWp, Real.sqrt_one]
  have hi0 : (0 : ℕ) < exampleRoute.length := by norm_num [exampleRoute]
  have hi1 : (1 : ℕ) < exampleRoute.length := by norm_num [exampleRoute]
  have hi2 : (2 : ℕ) < exampleRoute.length := by norm_num [exampleRoute]
  have hs2 : ((generate_lane exampleRoute 6 0).getD 2 default).speed = 0 := by
    rw [hgen, decelerate_getD_speed _ _ _ _ hi2]
    have hv : rawVel exampleRoute 0 6 2 < 1 := by
      rw [rawVel, hso, distance_zero_of_le _ _ _ le_rfl]
      rw [show (2 : ℝ) * MAX_DECEL * 0 = 0 by ring, Real.sqrt_zero, zero_add,
        CONSTANT_DECEL]
      norm_num [LOOKAHEAD_WPS]
    rw [if_pos hv, e2]
    norm_num [mkWp]
  have hrv1 : rawVel exampleRoute 0 6 1 = 101 / 100 := by
    rw [rawVel, hso, hd1, CONSTANT_DECEL]
    rw [show (2 : ℝ) * MAX_DECEL * 1 = 1 by norm_num [MAX_DECEL], Real.sqrt_one]
    norm_num [LOOKAHEAD_WPS]
  have hs1 : ((generate_lane exampleRoute 6 0).getD 1 default).speed = 101 / 100 := by
    rw [hgen, decelerate_getD_speed _ _ _ _ hi1, hrv1]
    rw [if_neg (by norm_num), e1]
    norm_num [mkWp]
  have hrv0 : rawVel exampleRoute 0 6 0 = Real.sqrt 2 := by
    rw [rawVel, hso, hd0]
    rw [show (2 : ℝ) * MAX_DECEL * 2 = 2 by norm_num [MAX_DECEL]]
    norm_num
  have hsqrt2_le : Real.sqrt 2 ≤ 5 :=
    le_of_lt ((Real.sqrt_lt' (by norm_num)).mpr (by norm_num))
  have hs0 : ((generate_lane exampleRoute 6 0).getD 0 default).speed = Real.sqrt 2 := by
    rw [hgen, decelerate_getD_speed _ _ _ _ hi0, hrv0]
    have h1 : ¬ Real.sqrt 2 < 1 := by
      rw [Real.sqrt_lt' one_pos]
      norm_num
    rw [if_neg h1, e0]
    show min (Real.sqrt 2) (5 : ℝ) = Real.sqrt 2
    exact min_eq_left hsqrt2_le
  refine ⟨hso, hs2, ?_, ?_, ?_, ?_, ?_, ?_⟩
  · rw [hs0]
    exact ne_of_gt (Real.sqrt_pos.mpr (by norm_num))
  · rw [hs1]; norm_num
  · rw [hs0]; exact hsqrt2_le
  · rw [hs1]; norm_num
  · rw [hs0, hs1]
    exact (Real.lt_sqrt (by norm_num)).mpr (by norm_num)
  · rw [hs1]; norm_num

end WaypointUpdater

end
